import Mathlib

/-
Verification of the data-access layer of the `vibe` repository: a React SPA
whose non-UI logic consists of a fluent Supabase query-builder
(`src/front/src/hooks/useSupabaseQueryBuilderV2.ts`), error classification
(`src/front/src/shared/api/client.ts` and the builder's
`handleSupabaseError`), startup environment validation
(`src/front/src/shared/api/supabase.ts`), the session query's retry policy
(`useAuth`), the route table (`src/front/src/app/providers/router/routes.tsx`)
and the todo page's soft-delete handlers
(`src/front/src/pages/TodoPage/TodoPage.tsx`).

Each definition is a shallow embedding of the corresponding TypeScript
declaration; JavaScript strings become `String`, JavaScript numbers used as
integers become `Int` (or `Nat` where the source only ever produces
non-negative counts), `T | null` / optional fields become `Option`, and a
function that always throws becomes a total function returning the thrown
exception value.
-/

namespace Vibe

/-! ## ApiException and error classification

Embeds `ApiException` from `src/front/src/shared/api/client.ts`. The class
extends `Error` with `status`, optional `code`, `details` and `hint`. The
`details` field receives heterogeneous values in the source (a Postgrest
`details` string, the original `AuthError` object, or the raw unknown error),
modelled by the tagged type `ErrDetail` below. -/

/-- Input value of `handleSupabaseError(error: unknown)`: either a JavaScript
object that has a `code` property (read as a `PostgrestError`, whose `code`,
`message`, `details` and `hint` fields are strings), or any other value
(an object without `code`, `null`, a primitive, ...). -/
inductive SupaErrorValue where
  | objWithCode (code : String) (message : String) (details : String) (hint : String)
  | other
deriving DecidableEq, Repr

/-- Tag for the heterogeneous `details` argument passed to the `ApiException`
constructor at its three kinds of call sites. -/
inductive ErrDetail where
  | str (s : String)
  | authErrorObj (message : String)
  | raw (e : SupaErrorValue)
deriving DecidableEq, Repr

/-- The `ApiException` value built by `new ApiException(status, message, code?,
details?, hint?)` in `src/front/src/shared/api/client.ts` lines 9-28. -/
structure ApiException where
  status : Nat
  message : String
  code : Option String
  details : Option ErrDetail
  hint : Option String
deriving DecidableEq, Repr

/-- The `AuthError` shape consumed by `ApiException.fromAuthError`: the source
only reads `error.message` (and forwards the object itself as `details`). -/
structure AuthError where
  message : String
deriving DecidableEq, Repr

/-- The `statusMap` record literal inside `ApiException.fromAuthError`
(`client.ts` lines 32-39), as a partial lookup on the message string. -/
def authStatusMap (message : String) : Option Nat :=
  if message = "invalid_credentials" then some 401
  else if message = "email_not_confirmed" then some 422
  else if message = "signup_disabled" then some 403
  else if message = "weak_password" then some 400
  else if message = "invalid_request" then some 400
  else if message = "rate_limit_exceeded" then some 429
  else none

/-- Embeds `ApiException.fromAuthError` (`client.ts` lines 31-47):
`new ApiException(statusMap[error.message] || 400, error.message,
error.message, error)`. Since no entry of `statusMap` is `0`, the JavaScript
`|| 400` fallback coincides with `Option.getD 400`. -/
def ApiException.fromAuthError (e : AuthError) : ApiException :=
  { status := (authStatusMap e.message).getD 400
    message := e.message
    code := some e.message
    details := some (ErrDetail.authErrorObj e.message)
    hint := none }

/-- Korean message literal used for unique-constraint violations. -/
def msgDuplicate : String := "이미 존재하는 데이터입니다."

/-- Korean message literal used for foreign-key violations. -/
def msgMissingReference : String := "참조된 데이터가 존재하지 않습니다."

/-- Korean message literal used for insufficient privilege. -/
def msgNoPermission : String := "권한이 없습니다."

/-- Korean message literal used for check-constraint violations. -/
def msgBadFormat : String := "데이터 형식이 올바르지 않습니다."

/-- Korean message literal used for the generic unknown-error fallback. -/
def msgUnknownError : String := "알 수 없는 오류가 발생했습니다."

/-- Embeds `SupabaseQueryBuilder.handleSupabaseError`
(`useSupabaseQueryBuilderV2.ts` lines 389-408; the identical free function
also appears in the shared hooks module). The source always throws; the
embedding returns the thrown `ApiException`. -/
def handleSupabaseError : SupaErrorValue → ApiException
  | SupaErrorValue.objWithCode c m d h =>
    if c = "23505" then
      { status := 409, message := msgDuplicate, code := some c
        details := some (ErrDetail.str d), hint := some h }
    else if c = "23503" then
      { status := 400, message := msgMissingReference, code := some c
        details := some (ErrDetail.str d), hint := some h }
    else if c = "42501" then
      { status := 403, message := msgNoPermission, code := some c
        details := some (ErrDetail.str d), hint := some h }
    else if c = "23514" then
      { status := 400, message := msgBadFormat, code := some c
        details := some (ErrDetail.str d), hint := some h }
    else
      { status := 400, message := m, code := some c
        details := some (ErrDetail.str d), hint := some h }
  | SupaErrorValue.other =>
    { status := 500, message := msgUnknownError, code := some "UNKNOWN_ERROR"
      details := some (ErrDetail.raw SupaErrorValue.other), hint := none }

/-! ## Startup environment validation

Embeds `src/front/src/shared/api/supabase.ts` lines 5-19. `import.meta.env`
variables are `string | undefined`; the guard `!supabaseUrl || !supabaseKey`
treats `undefined` and the empty string as absent and throws before
`createClient` runs. -/

/-- Options object passed to `createClient` plus its two positional
arguments, recording what the client is constructed with. -/
structure SupabaseClientConfig where
  url : String
  key : String
  persistSession : Bool
  autoRefreshToken : Bool
  detectSessionInUrl : Bool
deriving DecidableEq, Repr

/-- Error message literal thrown when an environment variable is missing. -/
def msgEnvRequired : String := "VITE_SUPABASE_URL과 VITE_SUPABASE_ANON_KEY 환경변수가 필요합니다."

/-- JavaScript falsiness of a possibly-undefined string: `undefined` and the
empty string are falsy. -/
def envPresent : Option String → Bool
  | none => false
  | some s => s ≠ ""

/-- Embeds module initialization of `supabase.ts`: throw on a missing
variable, otherwise construct the client from the two values with the fixed
auth options. -/
def initSupabaseModule (url key : Option String) : Except String SupabaseClientConfig :=
  if ¬ envPresent url ∨ ¬ envPresent key then
    Except.error msgEnvRequired
  else
    Except.ok
      { url := url.getD "", key := key.getD ""
        persistSession := true, autoRefreshToken := true, detectSessionInUrl := true }

/-! ## Session query retry policy

Embeds the `retry` option of the user query in `useAuth`
(`src/unnamed/part_011` lines 32-38): authentication failures (status 401 or
403) are never retried; otherwise retry while `failureCount < 2`. The
optional-chaining guard `error?.status` is modelled by an `Option` error. -/

/-- The retry predicate `(failureCount, error) => ...` of the session query. -/
def sessionRetry (failureCount : Nat) (error : Option ApiException) : Bool :=
  match error with
  | some e => if e.status = 401 ∨ e.status = 403 then false else failureCount < 2
  | none => failureCount < 2

/-! ## Query builder: accumulated state

Embeds the condition types and the private fields of the class
`SupabaseQueryBuilder` (`useSupabaseQueryBuilderV2.ts` lines 43-92). Values
of arbitrary JavaScript type (`unknown`) that the builder merely stores and
forwards are modelled by the scalar value type `JsVal`. -/

/-- JavaScript `String.prototype.trim`: drop leading and trailing whitespace.
Embedded as a structurally recursive character-list computation so that
concrete instances evaluate inside the kernel. -/
def jsTrim (s : String) : String :=
  String.mk (((s.data.dropWhile Char.isWhitespace).reverse.dropWhile
    Char.isWhitespace).reverse)

/-- Scalar JavaScript value stored in a where-condition. -/
inductive JsVal where
  | vNull
  | vBool (b : Bool)
  | vNum (n : Int)
  | vStr (s : String)
deriving DecidableEq, Repr

/-- The tagged union `WhereCondition` (`useSupabaseQueryBuilderV2.ts` lines
43-53). The `is` variant stores `null | boolean`, modelled as `Option Bool`
with `none` for `null`. The three-argument `where(column, operator, value)`
overloads construct exactly one of these variants, so the embedding of
`where` below takes the constructed variant. -/
inductive WhereCondition where
  | eq (column : String) (value : JsVal)
  | neq (column : String) (value : JsVal)
  | gt (column : String) (value : JsVal)
  | gte (column : String) (value : JsVal)
  | lt (column : String) (value : JsVal)
  | lte (column : String) (value : JsVal)
  | inList (column : String) (values : List JsVal)
  | isCond (column : String) (value : Option Bool)
  | like (column : String) (pattern : String)
  | ilike (column : String) (pattern : String)
deriving DecidableEq, Repr

/-- The `SearchCondition` type (lines 56-60). The `search` method always
stores the `caseSensitive` flag, so it is a plain `Bool` here. -/
structure SearchCondition where
  columns : List String
  term : String
  caseSensitive : Bool
deriving DecidableEq, Repr

/-- The `SortCondition` type (lines 63-67). -/
structure SortCondition where
  column : String
  ascending : Bool
  nullsFirst : Option Bool
deriving DecidableEq, Repr

/-- The `PaginationCondition` type (lines 70-73). JavaScript numbers used as
page index and page size are modelled as `Int`. -/
structure PaginationCondition where
  page : Int
  size : Int
deriving DecidableEq, Repr

/-- The `'asc' | 'desc'` direction argument of `sort`. -/
inductive SortDirection where
  | asc
  | desc
deriving DecidableEq, Repr

/-- The comparison `direction === 'asc'` performed by `sort`. -/
def SortDirection.isAsc : SortDirection → Bool
  | SortDirection.asc => true
  | SortDirection.desc => false

/-- The accumulated state of a `SupabaseQueryBuilder` instance: its private
fields (lines 80-88) with their initial values established by the
constructor (lines 90-92). -/
structure SupabaseQueryBuilder where
  table : String
  selectedColumns : String
  whereConditions : List WhereCondition
  searchCondition : Option SearchCondition
  sortConditions : List SortCondition
  paginationCondition : Option PaginationCondition
  singleMode : Bool
  countMode : Bool
  withCountMode : Bool
deriving DecidableEq, Repr

/-- The factory `createSupabaseQuery(table)` (lines 418-422): a fresh builder
with the constructor's field defaults. -/
def createSupabaseQuery (table : String) : SupabaseQueryBuilder :=
  { table := table, selectedColumns := "*", whereConditions := []
    searchCondition := none, sortConditions := [], paginationCondition := none
    singleMode := false, countMode := false, withCountMode := false }

/-- Method `select(columns)` (lines 95-99) on the state view: every chaining
method clones and updates the clone, so on the pure state view it is a
record update. The aliasing behaviour of `clone` is modelled separately
below (`Mut` namespace). -/
def SupabaseQueryBuilder.select (q : SupabaseQueryBuilder) (columns : String) :
    SupabaseQueryBuilder :=
  { q with selectedColumns := columns }

/-- Method `selectColumn(column)` (lines 102-104): delegates to `select`. -/
def SupabaseQueryBuilder.selectColumn (q : SupabaseQueryBuilder) (column : String) :
    SupabaseQueryBuilder :=
  q.select column

/-- Method `selectColumns(columns)` (lines 107-109): joins with a comma and a
space and delegates to `select`. -/
def SupabaseQueryBuilder.selectColumns (q : SupabaseQueryBuilder) (columns : List String) :
    SupabaseQueryBuilder :=
  q.select (String.intercalate ", " columns)

/-- Method `where(column, operator, value)` (lines 112-146): pushes the
condition the overloads construct onto the cloned builder's list. -/
def SupabaseQueryBuilder.whereCond (q : SupabaseQueryBuilder) (c : WhereCondition) :
    SupabaseQueryBuilder :=
  { q with whereConditions := q.whereConditions ++ [c] }

/-- Method `whereEq` (lines 149-154). -/
def SupabaseQueryBuilder.whereEq (q : SupabaseQueryBuilder) (column : String)
    (value : JsVal) : SupabaseQueryBuilder :=
  q.whereCond (WhereCondition.eq column value)

/-- Method `whereIn` (lines 156-161). -/
def SupabaseQueryBuilder.whereIn (q : SupabaseQueryBuilder) (column : String)
    (values : List JsVal) : SupabaseQueryBuilder :=
  q.whereCond (WhereCondition.inList column values)

/-- Method `whereGt` (lines 163-168). -/
def SupabaseQueryBuilder.whereGt (q : SupabaseQueryBuilder) (column : String)
    (value : JsVal) : SupabaseQueryBuilder :=
  q.whereCond (WhereCondition.gt column value)

/-- Method `whereLike` (lines 170-175). -/
def SupabaseQueryBuilder.whereLike (q : SupabaseQueryBuilder) (column : String)
    (pattern : String) : SupabaseQueryBuilder :=
  q.whereCond (WhereCondition.like column pattern)

/-- Method `search(columns, term, caseSensitive = false)` (lines 178-188):
identity for a blank term, otherwise replaces the search condition with the
trimmed term. -/
def SupabaseQueryBuilder.search (q : SupabaseQueryBuilder) (columns : List String)
    (term : String) (caseSensitive : Bool) : SupabaseQueryBuilder :=
  if jsTrim term = "" then q
  else { q with searchCondition := some ⟨columns, jsTrim term, caseSensitive⟩ }

/-- Method `searchInColumn` (lines 191-197). -/
def SupabaseQueryBuilder.searchInColumn (q : SupabaseQueryBuilder) (column : String)
    (term : String) (caseSensitive : Bool) : SupabaseQueryBuilder :=
  q.search [column] term caseSensitive

/-- Method `sort(column, direction = 'asc', nullsFirst?)` (lines 200-212). -/
def SupabaseQueryBuilder.sort (q : SupabaseQueryBuilder) (column : String)
    (direction : SortDirection) (nullsFirst : Option Bool) : SupabaseQueryBuilder :=
  { q with sortConditions := q.sortConditions ++
      [{ column := column, ascending := direction.isAsc, nullsFirst := nullsFirst }] }

/-- Method `orderBy` (lines 215-217). -/
def SupabaseQueryBuilder.orderBy (q : SupabaseQueryBuilder) (column : String) :
    SupabaseQueryBuilder :=
  q.sort column SortDirection.asc none

/-- Method `orderByDesc` (lines 219-221). -/
def SupabaseQueryBuilder.orderByDesc (q : SupabaseQueryBuilder) (column : String) :
    SupabaseQueryBuilder :=
  q.sort column SortDirection.desc none

/-- Method `paginate(condition)` (lines 224-228). -/
def SupabaseQueryBuilder.paginate (q : SupabaseQueryBuilder)
    (condition : PaginationCondition) : SupabaseQueryBuilder :=
  { q with paginationCondition := some condition }

/-- Method `single()` (lines 231-235). -/
def SupabaseQueryBuilder.single (q : SupabaseQueryBuilder) : SupabaseQueryBuilder :=
  { q with singleMode := true }

/-- Method `count()` (lines 238-242). -/
def SupabaseQueryBuilder.count (q : SupabaseQueryBuilder) : SupabaseQueryBuilder :=
  { q with countMode := true }

/-- Method `withCount()` (lines 245-249). -/
def SupabaseQueryBuilder.withCount (q : SupabaseQueryBuilder) : SupabaseQueryBuilder :=
  { q with withCountMode := true }

/-! ## Query builder: the call trace of `execute`

`execute` (lines 269-372) replays the accumulated state as a sequence of
calls on the Supabase client. Each call is recorded as a `QueryStep`; the
trace follows the source order: select, where conditions, search or-filter,
order calls, range, single. -/

/-- One chained call performed by `execute` on the Supabase query object. -/
inductive QueryStep where
  | selectStep (columns : String) (countExact : Bool) (headOnly : Bool)
  | eqStep (column : String) (value : JsVal)
  | neqStep (column : String) (value : JsVal)
  | gtStep (column : String) (value : JsVal)
  | gteStep (column : String) (value : JsVal)
  | ltStep (column : String) (value : JsVal)
  | lteStep (column : String) (value : JsVal)
  | inStep (column : String) (values : List JsVal)
  | isStep (column : String) (value : Option Bool)
  | likeStep (column : String) (pattern : String)
  | ilikeStep (column : String) (pattern : String)
  | orStep (filters : String)
  | orderStep (column : String) (ascending : Bool) (nullsFirst : Option Bool)
  | rangeStep (first last : Int)
  | singleStep
deriving DecidableEq, Repr

/-- Recognizer for the or-filter call. -/
def QueryStep.isOr : QueryStep → Bool
  | QueryStep.orStep _ => true
  | _ => false

/-- Recognizer for the range call. -/
def QueryStep.isRange : QueryStep → Bool
  | QueryStep.rangeStep _ _ => true
  | _ => false

/-- The initial select call (lines 275-281): `count` mode selects `*` with an
exact head-only count, `withCount` mode selects the chosen columns with an
exact count, otherwise a plain select of the chosen columns. -/
def SupabaseQueryBuilder.selectStepOf (q : SupabaseQueryBuilder) : QueryStep :=
  if q.countMode then QueryStep.selectStep "*" true true
  else if q.withCountMode then QueryStep.selectStep q.selectedColumns true false
  else QueryStep.selectStep q.selectedColumns false false

/-- The per-condition filter call of the `switch` on `condition.type`
(lines 284-317). -/
def applyWhere : WhereCondition → QueryStep
  | WhereCondition.eq c v => QueryStep.eqStep c v
  | WhereCondition.neq c v => QueryStep.neqStep c v
  | WhereCondition.gt c v => QueryStep.gtStep c v
  | WhereCondition.gte c v => QueryStep.gteStep c v
  | WhereCondition.lt c v => QueryStep.ltStep c v
  | WhereCondition.lte c v => QueryStep.lteStep c v
  | WhereCondition.inList c vs => QueryStep.inStep c vs
  | WhereCondition.isCond c v => QueryStep.isStep c v
  | WhereCondition.like c p => QueryStep.likeStep c p
  | WhereCondition.ilike c p => QueryStep.ilikeStep c p

/-- The argument string of the or-filter built for a search condition
(lines 320-326): `%term%` wildcards, `like` when case sensitive and `ilike`
otherwise, one `column.operator.pattern` entry per column joined by commas. -/
def searchFilterString (sc : SearchCondition) : String :=
  String.intercalate ","
    (sc.columns.map (fun col =>
      col ++ "." ++ (if sc.caseSensitive then "like" else "ilike") ++ "."
        ++ ("%" ++ sc.term ++ "%")))

/-- The or-filter call when a search condition is present (lines 320-327). -/
def SupabaseQueryBuilder.searchStepsOf (q : SupabaseQueryBuilder) : List QueryStep :=
  match q.searchCondition with
  | some sc => [QueryStep.orStep (searchFilterString sc)]
  | none => []

/-- An order call per sort condition (lines 330-335). -/
def orderStepOf (sc : SortCondition) : QueryStep :=
  QueryStep.orderStep sc.column sc.ascending sc.nullsFirst

/-- The range call for pagination (lines 338-342): rows `page*size` through
`page*size + size - 1` inclusive. -/
def SupabaseQueryBuilder.rangeStepsOf (q : SupabaseQueryBuilder) : List QueryStep :=
  match q.paginationCondition with
  | some p => [QueryStep.rangeStep (p.page * p.size) (p.page * p.size + p.size - 1)]
  | none => []

/-- The full call trace of `execute` (lines 272-347), in source order. -/
def SupabaseQueryBuilder.executeSteps (q : SupabaseQueryBuilder) : List QueryStep :=
  [q.selectStepOf]
    ++ q.whereConditions.map applyWhere
    ++ q.searchStepsOf
    ++ q.sortConditions.map orderStepOf
    ++ q.rangeStepsOf
    ++ (if q.singleMode then [QueryStep.singleStep] else [])

/-! ## Todo page: soft delete

Embeds `src/front/src/pages/TodoPage/TodoPage.tsx`: the row shape the page
reads from `Tables<'tb_todolist'>`, the `handleDeleteTodo` event handler
(lines 199-220) and the `todosQuery` builder (lines 58-83). -/

/-- A `tb_todolist` row as the page reads it: `id` is a number, `title`,
`description`, `user_email`, `updated_at` and `deleted_at` are nullable,
`created_at` is a timestamp string. -/
structure TodoItem where
  id : Int
  title : Option String
  description : Option String
  user_email : Option String
  created_at : String
  updated_at : Option String
  deleted_at : Option String
deriving DecidableEq, Repr

/-- Outcome of `handleDeleteTodo`: an alert for an already-deleted row, no
mutation when the user declines the confirm dialog, an `update` mutation
with the given row id and `deleted_at`/`updated_at` payload, or a table
`delete` mutation (which the handler never issues; the page's delete
mutation is commented out in the source). -/
inductive TodoMutationAction where
  | alertAlreadyDeleted
  | noMutation
  | updateMutation (id : String) (deleted_at : String) (updated_at : String)
  | deleteMutation (id : String)
deriving DecidableEq, Repr

/-- Embeds `handleDeleteTodo(todo)` (lines 199-220). `confirmed` is the
result of `window.confirm`; `now` is `new Date().toISOString()` (the two
calls in the payload are made at the same instant and modelled as one
value). A non-null `deleted_at` short-circuits with an alert; otherwise a
confirmed delete issues an update mutation setting `deleted_at` and
`updated_at` to the current timestamp. -/
def handleDeleteTodo (todo : TodoItem) (confirmed : Bool) (now : String) :
    TodoMutationAction :=
  if todo.deleted_at ≠ none then TodoMutationAction.alertAlreadyDeleted
  else if confirmed then TodoMutationAction.updateMutation (toString todo.id) now now
  else TodoMutationAction.noMutation

/-- Embeds the `todosQuery` memo (lines 58-83): select all columns of
`tb_todolist`, always filter `deleted_at is null`, search the `title` column
when the search term is non-blank, order by the chosen column and direction,
paginate, and request the row count alongside the data. -/
def buildTodosQuery (searchTerm : String) (sortColumn : String)
    (sortDirection : SortDirection) (currentPage pageSize : Int) :
    SupabaseQueryBuilder :=
  let q := (createSupabaseQuery "tb_todolist").select "*"
  let q := q.whereCond (WhereCondition.isCond "deleted_at" none)
  let q := if jsTrim searchTerm ≠ "" then
      q.searchInColumn "title" (jsTrim searchTerm) false
    else q
  let q := match sortDirection with
    | SortDirection.asc => q.orderBy sortColumn
    | SortDirection.desc => q.orderByDesc sortColumn
  let q := q.paginate ⟨currentPage, pageSize⟩
  q.withCount

/-! ## Route table

Embeds the `routes` array of
`src/front/src/app/providers/router/routes.tsx` lines 39-66: one root `/`
route rendering the (non-lazy) `RootLayout`, with five child routes, each
child rendering a lazily loaded page component. -/

/-- A child route object: `path` is absent on the index route, `element`
names the rendered component, `elementLazy` records whether that component
is created through `lazy(() => import(...))`. -/
structure ChildRoute where
  path : Option String
  index : Bool
  element : String
  elementLazy : Bool
deriving DecidableEq, Repr

/-- The root route object of the table. -/
structure RootRoute where
  path : String
  element : String
  elementLazy : Bool
  children : List ChildRoute
deriving DecidableEq, Repr

/-- The `routes` array (lines 39-66). -/
def routes : List RootRoute :=
  [{ path := "/", element := "RootLayout", elementLazy := false
     children :=
       [⟨none, true, "HomePage", true⟩,
        ⟨some "about", false, "AboutPage", true⟩,
        ⟨some "todos", false, "TodoPage", true⟩,
        ⟨some "login", false, "LoginPage", true⟩,
        ⟨some "*", false, "NotFoundPage", true⟩] }]

/-! ## Query builder: object identity and the frame effect of chaining

Each chaining method calls the private `clone` (lines 375-386) and mutates
only the clone, either by assigning a field of the new object or by calling
`push` on one of its two arrays. That the receiver is left unchanged depends
on `clone` copying the `whereConditions` and `sortConditions` arrays
(`[...this.whereConditions]`, `[...this.sortConditions]`) instead of
aliasing them. To make this observable, the `Mut` namespace models the two
array-valued fields as references into an explicit store of allocated
arrays, `push` as an in-place update of the referenced array, and every
chaining method as a function from (store, receiver) to (store, returned
object). `observe` dereferences a builder object into the pure state view
`SupabaseQueryBuilder` used above. -/

namespace Mut

/-- Store of allocated JavaScript arrays, addressed by allocation index:
one table for where-condition arrays, one for sort-condition arrays. -/
structure Store where
  wh : List (List WhereCondition)
  so : List (List SortCondition)
deriving DecidableEq, Repr

/-- A builder object: scalar (reassigned-only) fields inline, the two
mutable array fields as references into the store. -/
structure BuilderObj where
  table : String
  selectedColumns : String
  whereRef : Nat
  searchCondition : Option SearchCondition
  sortRef : Nat
  paginationCondition : Option PaginationCondition
  singleMode : Bool
  countMode : Bool
  withCountMode : Bool
deriving DecidableEq, Repr

/-- Both references of `b` point at allocated arrays of `s`. -/
def Store.validFor (s : Store) (b : BuilderObj) : Prop :=
  b.whereRef < s.wh.length ∧ b.sortRef < s.so.length

instance validForDecidable (s : Store) (b : BuilderObj) :
    Decidable (s.validFor b) :=
  decidable_of_iff (b.whereRef < s.wh.length ∧ b.sortRef < s.so.length) Iff.rfl

/-- Dereference a builder object into its accumulated state (a dangling
reference reads as the empty array). -/
def observe (s : Store) (b : BuilderObj) : SupabaseQueryBuilder :=
  { table := b.table, selectedColumns := b.selectedColumns
    whereConditions := s.wh.getD b.whereRef []
    searchCondition := b.searchCondition
    sortConditions := s.so.getD b.sortRef []
    paginationCondition := b.paginationCondition
    singleMode := b.singleMode, countMode := b.countMode
    withCountMode := b.withCountMode }

/-- The constructor `new SupabaseQueryBuilder(table)` (lines 80-92):
allocates two fresh empty arrays. -/
def newBuilder (s : Store) (table : String) : Store × BuilderObj :=
  (⟨s.wh ++ [[]], s.so ++ [[]]⟩,
   ⟨table, "*", s.wh.length, none, s.so.length, none, false, false, false⟩)

/-- The private `clone` (lines 375-386): a new object with the scalar fields
copied and fresh copies of both arrays allocated. The optional condition
objects are spread-copied in the source, which on never-mutated records is
the identity. -/
def clone (s : Store) (b : BuilderObj) : Store × BuilderObj :=
  (⟨s.wh ++ [s.wh.getD b.whereRef []], s.so ++ [s.so.getD b.sortRef []]⟩,
   { b with whereRef := s.wh.length, sortRef := s.so.length })

/-- In-place `push` on the where-conditions array at reference `r`. -/
def pushWhere (s : Store) (r : Nat) (c : WhereCondition) : Store :=
  ⟨s.wh.set r (s.wh.getD r [] ++ [c]), s.so⟩

/-- In-place `push` on the sort-conditions array at reference `r`. -/
def pushSort (s : Store) (r : Nat) (c : SortCondition) : Store :=
  ⟨s.wh, s.so.set r (s.so.getD r [] ++ [c])⟩

/-- Method `select` on objects. -/
def select (s : Store) (b : BuilderObj) (columns : String) : Store × BuilderObj :=
  let sb := clone s b
  (sb.1, { sb.2 with selectedColumns := columns })

/-- Method `selectColumn` on objects. -/
def selectColumn (s : Store) (b : BuilderObj) (column : String) :
    Store × BuilderObj :=
  select s b column

/-- Method `selectColumns` on objects. -/
def selectColumns (s : Store) (b : BuilderObj) (columns : List String) :
    Store × BuilderObj :=
  select s b (String.intercalate ", " columns)

/-- Method `where` on objects: `push` on the clone's array. -/
def whereCond (s : Store) (b : BuilderObj) (c : WhereCondition) :
    Store × BuilderObj :=
  let sb := clone s b
  (pushWhere sb.1 sb.2.whereRef c, sb.2)

/-- Method `whereEq` on objects. -/
def whereEq (s : Store) (b : BuilderObj) (column : String) (value : JsVal) :
    Store × BuilderObj :=
  whereCond s b (WhereCondition.eq column value)

/-- Method `whereIn` on objects. -/
def whereIn (s : Store) (b : BuilderObj) (column : String) (values : List JsVal) :
    Store × BuilderObj :=
  whereCond s b (WhereCondition.inList column values)

/-- Method `whereGt` on objects. -/
def whereGt (s : Store) (b : BuilderObj) (column : String) (value : JsVal) :
    Store × BuilderObj :=
  whereCond s b (WhereCondition.gt column value)

/-- Method `whereLike` on objects. -/
def whereLike (s : Store) (b : BuilderObj) (column : String) (pattern : String) :
    Store × BuilderObj :=
  whereCond s b (WhereCondition.like column pattern)

/-- Method `search` on objects: returns the receiver itself for a blank
term, otherwise assigns the clone's search condition. -/
def search (s : Store) (b : BuilderObj) (columns : List String) (term : String)
    (caseSensitive : Bool) : Store × BuilderObj :=
  if jsTrim term = "" then (s, b)
  else
    let sb := clone s b
    (sb.1, { sb.2 with searchCondition := some ⟨columns, jsTrim term, caseSensitive⟩ })

/-- Method `searchInColumn` on objects. -/
def searchInColumn (s : Store) (b : BuilderObj) (column : String) (term : String)
    (caseSensitive : Bool) : Store × BuilderObj :=
  search s b [column] term caseSensitive

/-- Method `sort` on objects: `push` on the clone's array. -/
def sort (s : Store) (b : BuilderObj) (column : String) (direction : SortDirection)
    (nullsFirst : Option Bool) : Store × BuilderObj :=
  let sb := clone s b
  (pushSort sb.1 sb.2.sortRef ⟨column, direction.isAsc, nullsFirst⟩, sb.2)

/-- Method `orderBy` on objects. -/
def orderBy (s : Store) (b : BuilderObj) (column : String) : Store × BuilderObj :=
  sort s b column SortDirection.asc none

/-- Method `orderByDesc` on objects. -/
def orderByDesc (s : Store) (b : BuilderObj) (column : String) :
    Store × BuilderObj :=
  sort s b column SortDirection.desc none

/-- Method `paginate` on objects. -/
def paginate (s : Store) (b : BuilderObj) (condition : PaginationCondition) :
    Store × BuilderObj :=
  let sb := clone s b
  (sb.1, { sb.2 with paginationCondition := some condition })

/-- Method `single` on objects. -/
def single (s : Store) (b : BuilderObj) : Store × BuilderObj :=
  let sb := clone s b
  (sb.1, { sb.2 with singleMode := true })

/-- Method `count` on objects. -/
def count (s : Store) (b : BuilderObj) : Store × BuilderObj :=
  let sb := clone s b
  (sb.1, { sb.2 with countMode := true })

/-- Method `withCount` on objects. -/
def withCount (s : Store) (b : BuilderObj) : Store × BuilderObj :=
  let sb := clone s b
  (sb.1, { sb.2 with withCountMode := true })

end Mut

end Vibe

namespace Vibe

/-! ## Claim theorems for error handling, startup and retry -/

/-- C1: every error value given to `handleSupabaseError` yields an
`ApiException` (the embedding is total into `ApiException`), with status 409
and a fixed localized message for code 23505, 400 for 23503, 403 for 42501,
400 for 23514, status 400 with the backend's own message for any other code,
and status 500 with the generic unknown-error message and code
`UNKNOWN_ERROR` for an error without a `code` property. -/
theorem handleSupabaseError_classification :
    (∀ m d h, handleSupabaseError (SupaErrorValue.objWithCode "23505" m d h) =
      { status := 409, message := msgDuplicate, code := some "23505"
        details := some (ErrDetail.str d), hint := some h }) ∧
    (∀ m d h, handleSupabaseError (SupaErrorValue.objWithCode "23503" m d h) =
      { status := 400, message := msgMissingReference, code := some "23503"
        details := some (ErrDetail.str d), hint := some h }) ∧
    (∀ m d h, handleSupabaseError (SupaErrorValue.objWithCode "42501" m d h) =
      { status := 403, message := msgNoPermission, code := some "42501"
        details := some (ErrDetail.str d), hint := some h }) ∧
    (∀ m d h, handleSupabaseError (SupaErrorValue.objWithCode "23514" m d h) =
      { status := 400, message := msgBadFormat, code := some "23514"
        details := some (ErrDetail.str d), hint := some h }) ∧
    (∀ c m d h, c ≠ "23505" → c ≠ "23503" → c ≠ "42501" → c ≠ "23514" →
      handleSupabaseError (SupaErrorValue.objWithCode c m d h) =
        { status := 400, message := m, code := some c
          details := some (ErrDetail.str d), hint := some h }) ∧
    handleSupabaseError SupaErrorValue.other =
      { status := 500, message := msgUnknownError, code := some "UNKNOWN_ERROR"
        details := some (ErrDetail.raw SupaErrorValue.other), hint := none } := by
  refine ⟨fun m d h => rfl, fun m d h => rfl, fun m d h => rfl, fun m d h => rfl,
    fun c m d h h1 h2 h3 h4 => ?_, rfl⟩
  simp [handleSupabaseError, h1, h2, h3, h4]

/-- Witness for C1: the general-code clause evaluated at the concrete
code `22P02`. -/
theorem handleSupabaseError_classification_witness :
    handleSupabaseError (SupaErrorValue.objWithCode "22P02" "invalid input" "d" "h") =
      { status := 400, message := "invalid input", code := some "22P02"
        details := some (ErrDetail.str "d"), hint := some "h" } :=
  handleSupabaseError_classification.2.2.2.2.1 "22P02" "invalid input" "d" "h"
    (by decide) (by decide) (by decide) (by decide)

/-- C7: `ApiException.fromAuthError` maps the listed auth error messages to
401, 422, 403, 400, 400 and 429 respectively, any other message to 400, and
always copies the original message into both `message` and `code`. -/
theorem fromAuthError_classification :
    (ApiException.fromAuthError { message := "invalid_credentials" }).status = 401 ∧
    (ApiException.fromAuthError { message := "email_not_confirmed" }).status = 422 ∧
    (ApiException.fromAuthError { message := "signup_disabled" }).status = 403 ∧
    (ApiException.fromAuthError { message := "weak_password" }).status = 400 ∧
    (ApiException.fromAuthError { message := "invalid_request" }).status = 400 ∧
    (ApiException.fromAuthError { message := "rate_limit_exceeded" }).status = 429 ∧
    (∀ m, m ≠ "invalid_credentials" → m ≠ "email_not_confirmed" →
      m ≠ "signup_disabled" → m ≠ "weak_password" → m ≠ "invalid_request" →
      m ≠ "rate_limit_exceeded" →
      (ApiException.fromAuthError { message := m }).status = 400) ∧
    (∀ e : AuthError, (ApiException.fromAuthError e).message = e.message ∧
      (ApiException.fromAuthError e).code = some e.message) := by
  refine ⟨rfl, rfl, rfl, rfl, rfl, rfl, fun m h1 h2 h3 h4 h5 h6 => ?_,
    fun e => ⟨rfl, rfl⟩⟩
  simp [ApiException.fromAuthError, authStatusMap, h1, h2, h3, h4, h5, h6]

/-- Witness for C7: the fallback clause evaluated at the concrete message
`session_expired`. -/
theorem fromAuthError_classification_witness :
    (ApiException.fromAuthError { message := "session_expired" }).status = 400 :=
  fromAuthError_classification.2.2.2.2.2.2.1 "session_expired"
    (by decide) (by decide) (by decide) (by decide) (by decide) (by decide)

/-- C8: module initialization of the Supabase client fails with the fixed
error when either environment variable is undefined or empty, and otherwise
constructs the client from exactly the two values (with the fixed auth
options), throwing nothing. -/
theorem initSupabaseModule_spec :
    (∀ url key : Option String, (¬ envPresent url ∨ ¬ envPresent key) →
      initSupabaseModule url key = Except.error msgEnvRequired) ∧
    (∀ u k : String, u ≠ "" → k ≠ "" →
      initSupabaseModule (some u) (some k) = Except.ok
        { url := u, key := k
          persistSession := true, autoRefreshToken := true, detectSessionInUrl := true }) := by
  constructor
  · intro url key habs
    rw [initSupabaseModule, if_pos habs]
  · intro u k hu hk
    have hurl : envPresent (some u) = true := by simp [envPresent, hu]
    have hkey : envPresent (some k) = true := by simp [envPresent, hk]
    simp [initSupabaseModule, hurl, hkey, Option.getD]

/-- Witness for C8: both clauses evaluated at concrete environments. -/
theorem initSupabaseModule_spec_witness :
    initSupabaseModule none (some "anon-key") = Except.error msgEnvRequired ∧
    initSupabaseModule (some "https://x.supabase.co") (some "anon-key") = Except.ok
      { url := "https://x.supabase.co", key := "anon-key"
        persistSession := true, autoRefreshToken := true, detectSessionInUrl := true } :=
  ⟨initSupabaseModule_spec.1 none (some "anon-key") (Or.inl (by decide)),
   initSupabaseModule_spec.2 "https://x.supabase.co" "anon-key" (by decide) (by decide)⟩

/-- C5: the session query retry predicate returns false for every error with
status 401 or 403 regardless of the failure count, and for an error with any
other status it returns true exactly when `failureCount < 2`. -/
theorem sessionRetry_spec :
    (∀ (failureCount : Nat) (e : ApiException), (e.status = 401 ∨ e.status = 403) →
      sessionRetry failureCount (some e) = false) ∧
    (∀ (failureCount : Nat) (e : ApiException), e.status ≠ 401 → e.status ≠ 403 →
      (sessionRetry failureCount (some e) = true ↔ failureCount < 2)) := by
  constructor
  · intro fc e hauth
    simp [sessionRetry, hauth]
  · intro fc e h1 h2
    simp [sessionRetry, h1, h2]

/-- Witness for C5: a 401 error is never retried even on the first failure,
and a 500 error is retried on the first failure but not the third. -/
theorem sessionRetry_spec_witness :
    sessionRetry 0 (some ⟨401, "auth", none, none, none⟩) = false ∧
    (sessionRetry 1 (some ⟨500, "boom", none, none, none⟩) = true ↔ (1 : Nat) < 2) ∧
    (sessionRetry 2 (some ⟨500, "boom", none, none, none⟩) = true ↔ (2 : Nat) < 2) :=
  ⟨sessionRetry_spec.1 0 _ (Or.inl rfl),
   sessionRetry_spec.2 1 _ (by decide) (by decide),
   sessionRetry_spec.2 2 _ (by decide) (by decide)⟩

/-! ## Helper lemmas about the `execute` call trace -/

theorem selectStepOf_isOr (q : SupabaseQueryBuilder) : q.selectStepOf.isOr = false := by
  unfold SupabaseQueryBuilder.selectStepOf
  split
  · rfl
  · split <;> rfl

theorem selectStepOf_isRange (q : SupabaseQueryBuilder) :
    q.selectStepOf.isRange = false := by
  unfold SupabaseQueryBuilder.selectStepOf
  split
  · rfl
  · split <;> rfl

theorem applyWhere_isOr (c : WhereCondition) : (applyWhere c).isOr = false := by
  cases c <;> rfl

theorem applyWhere_isRange (c : WhereCondition) : (applyWhere c).isRange = false := by
  cases c <;> rfl

theorem filter_isOr_map_applyWhere (l : List WhereCondition) :
    (l.map applyWhere).filter QueryStep.isOr = [] := by
  induction l with
  | nil => rfl
  | cons c l ih => simp [List.filter_cons, applyWhere_isOr, ih]

theorem filter_isRange_map_applyWhere (l : List WhereCondition) :
    (l.map applyWhere).filter QueryStep.isRange = [] := by
  induction l with
  | nil => rfl
  | cons c l ih => simp [List.filter_cons, applyWhere_isRange, ih]

theorem filter_isOr_map_orderStepOf (l : List SortCondition) :
    (l.map orderStepOf).filter QueryStep.isOr = [] := by
  induction l with
  | nil => rfl
  | cons c l ih => simp [List.filter_cons, orderStepOf, QueryStep.isOr, ih]

theorem filter_isRange_map_orderStepOf (l : List SortCondition) :
    (l.map orderStepOf).filter QueryStep.isRange = [] := by
  induction l with
  | nil => rfl
  | cons c l ih => simp [List.filter_cons, orderStepOf, QueryStep.isRange, ih]

theorem searchStepsOf_filter_isOr (q : SupabaseQueryBuilder) :
    q.searchStepsOf.filter QueryStep.isOr = q.searchStepsOf := by
  unfold SupabaseQueryBuilder.searchStepsOf
  cases q.searchCondition <;> rfl

theorem searchStepsOf_filter_isRange (q : SupabaseQueryBuilder) :
    q.searchStepsOf.filter QueryStep.isRange = [] := by
  unfold SupabaseQueryBuilder.searchStepsOf
  cases q.searchCondition <;> rfl

theorem rangeStepsOf_filter_isOr (q : SupabaseQueryBuilder) :
    q.rangeStepsOf.filter QueryStep.isOr = [] := by
  unfold SupabaseQueryBuilder.rangeStepsOf
  cases q.paginationCondition <;> rfl

theorem rangeStepsOf_filter_isRange (q : SupabaseQueryBuilder) :
    q.rangeStepsOf.filter QueryStep.isRange = q.rangeStepsOf := by
  unfold SupabaseQueryBuilder.rangeStepsOf
  cases q.paginationCondition <;> rfl

theorem singleSteps_filter_isOr (b : Bool) :
    (if b then [QueryStep.singleStep] else []).filter QueryStep.isOr = [] := by
  cases b <;> rfl

theorem singleSteps_filter_isRange (b : Bool) :
    (if b then [QueryStep.singleStep] else []).filter QueryStep.isRange = [] := by
  cases b <;> rfl

/-- The only or-filter calls in the trace come from the search condition. -/
theorem executeSteps_filter_isOr (q : SupabaseQueryBuilder) :
    q.executeSteps.filter QueryStep.isOr = q.searchStepsOf := by
  unfold SupabaseQueryBuilder.executeSteps
  simp [List.filter_append, List.filter_cons, selectStepOf_isOr,
    filter_isOr_map_applyWhere, filter_isOr_map_orderStepOf,
    searchStepsOf_filter_isOr, rangeStepsOf_filter_isOr, singleSteps_filter_isOr]

/-- The only range calls in the trace come from the pagination condition. -/
theorem executeSteps_filter_isRange (q : SupabaseQueryBuilder) :
    q.executeSteps.filter QueryStep.isRange = q.rangeStepsOf := by
  unfold SupabaseQueryBuilder.executeSteps
  simp [List.filter_append, List.filter_cons, selectStepOf_isRange,
    filter_isRange_map_applyWhere, filter_isRange_map_orderStepOf,
    searchStepsOf_filter_isRange, rangeStepsOf_filter_isRange,
    singleSteps_filter_isRange]

/-- C3: after `search(cols, t)` with a non-blank term, `execute` applies
exactly one or-filter, whose argument is the comma-joined list of
`column.operator.%trimmedTerm%` entries in column order, with operator
`ilike` when `caseSensitive` is false and `like` when it is true. -/
theorem search_or_filter (q : SupabaseQueryBuilder) (cols : List String) (t : String)
    (cs : Bool) (ht : jsTrim t ≠ "") :
    ((q.search cols t cs).executeSteps).filter QueryStep.isOr =
      [QueryStep.orStep (String.intercalate ","
        (cols.map (fun c => c ++ "." ++ (if cs then "like" else "ilike") ++ "."
          ++ ("%" ++ jsTrim t ++ "%"))))] := by
  rw [executeSteps_filter_isOr]
  simp [SupabaseQueryBuilder.search, ht, SupabaseQueryBuilder.searchStepsOf,
    searchFilterString]

/-- Witness for C3: a concrete two-column case-insensitive search with an
untrimmed term. -/
theorem search_or_filter_witness :
    (((createSupabaseQuery "tb_todolist").search ["title", "description"] " hello " false).executeSteps).filter QueryStep.isOr =
      [QueryStep.orStep "title.ilike.%hello%,description.ilike.%hello%"] :=
  (search_or_filter (createSupabaseQuery "tb_todolist") ["title", "description"]
    " hello " false (by decide)).trans (by decide)

/-- C4: with pagination condition `{page, size}`, `execute` issues exactly
one range call covering the inclusive rows `page*size` through
`page*size + size - 1`, an offset/limit window of exactly `size` rows
starting at offset `page*size`. -/
theorem paginate_range (q : SupabaseQueryBuilder) (p : PaginationCondition) :
    ((q.paginate p).executeSteps).filter QueryStep.isRange =
      [QueryStep.rangeStep (p.page * p.size) (p.page * p.size + p.size - 1)] ∧
    p.page * p.size + p.size - 1 - p.page * p.size + 1 = p.size := by
  constructor
  · rw [executeSteps_filter_isRange]
    simp [SupabaseQueryBuilder.paginate, SupabaseQueryBuilder.rangeStepsOf]
  · ring

/-- C10: `search` is the identity for a blank term, and for a non-blank
later term the new search condition replaces any earlier one entirely, so a
second `search` yields the same builder as applying it to the original
builder directly. -/
theorem search_blank_identity_and_last_wins :
    (∀ (q : SupabaseQueryBuilder) (cols : List String) (t : String) (cs : Bool),
      jsTrim t = "" → q.search cols t cs = q) ∧
    (∀ (q : SupabaseQueryBuilder) (c1 : List String) (t1 : String) (cs1 : Bool)
      (c2 : List String) (t2 : String) (cs2 : Bool), jsTrim t2 ≠ "" →
      ((q.search c1 t1 cs1).search c2 t2 cs2).searchCondition =
        some { columns := c2, term := jsTrim t2, caseSensitive := cs2 } ∧
      (q.search c1 t1 cs1).search c2 t2 cs2 = q.search c2 t2 cs2) := by
  constructor
  · intro q cols t cs h
    simp [SupabaseQueryBuilder.search, h]
  · intro q c1 t1 cs1 c2 t2 cs2 h2
    by_cases h1 : jsTrim t1 = "" <;>
      simp [SupabaseQueryBuilder.search, h1, h2]

/-- Witness for C10: blank-identity at a whitespace term and last-wins at two
concrete searches. -/
theorem search_blank_identity_and_last_wins_witness :
    (createSupabaseQuery "tb_todolist").search ["title"] "  " false =
      createSupabaseQuery "tb_todolist" ∧
    (((createSupabaseQuery "tb_todolist").search ["title"] "a" false).search
        ["description"] " b " true).searchCondition =
      some { columns := ["description"], term := "b", caseSensitive := true } :=
  ⟨search_blank_identity_and_last_wins.1 (createSupabaseQuery "tb_todolist")
      ["title"] "  " false (by decide),
   ((search_blank_identity_and_last_wins.2 (createSupabaseQuery "tb_todolist")
      ["title"] "a" false ["description"] " b " true (by decide)).1).trans (by decide)⟩

/-! ## Soft delete -/

theorem search_whereConditions (q : SupabaseQueryBuilder) (cols : List String)
    (t : String) (cs : Bool) :
    (q.search cols t cs).whereConditions = q.whereConditions := by
  unfold SupabaseQueryBuilder.search
  split <;> rfl

theorem searchInColumn_whereConditions (q : SupabaseQueryBuilder) (col t : String)
    (cs : Bool) :
    (q.searchInColumn col t cs).whereConditions = q.whereConditions :=
  search_whereConditions q [col] t cs

/-- C6: deleting a todo is a soft delete. A confirmed delete of a live row
(`deleted_at` null) issues an update mutation writing the current timestamp
into `deleted_at` and `updated_at`; the handler never issues a table delete
for any input; and the todo-list query carries the `deleted_at is null`
filter for every search, sort and pagination state. -/
theorem soft_delete_spec :
    (∀ (todo : TodoItem) (now : String), todo.deleted_at = none →
      handleDeleteTodo todo true now =
        TodoMutationAction.updateMutation (toString todo.id) now now) ∧
    (∀ (todo : TodoItem) (confirmed : Bool) (now i : String),
      handleDeleteTodo todo confirmed now ≠ TodoMutationAction.deleteMutation i) ∧
    (∀ (searchTerm sortColumn : String) (d : SortDirection) (page size : Int),
      WhereCondition.isCond "deleted_at" none ∈
        (buildTodosQuery searchTerm sortColumn d page size).whereConditions) := by
  refine ⟨fun todo now h => ?_, fun todo confirmed now i => ?_,
    fun searchTerm sortColumn d page size => ?_⟩
  · simp [handleDeleteTodo, h]
  · unfold handleDeleteTodo
    split
    · simp
    · split <;> simp
  · cases d <;>
      by_cases h : jsTrim searchTerm ≠ "" <;>
        simp [buildTodosQuery, h, SupabaseQueryBuilder.withCount,
          SupabaseQueryBuilder.paginate, SupabaseQueryBuilder.orderBy,
          SupabaseQueryBuilder.orderByDesc, SupabaseQueryBuilder.sort,
          searchInColumn_whereConditions, SupabaseQueryBuilder.whereCond,
          SupabaseQueryBuilder.select, createSupabaseQuery]

/-- Witness for C6: a concrete live row deleted at a concrete instant, a
concrete no-table-delete instance, and the filter in a concrete query
state. -/
theorem soft_delete_spec_witness :
    handleDeleteTodo ⟨7, some "t", none, none, "2024-01-01T00:00:00Z", none, none⟩
        true "2024-06-01T12:00:00Z" =
      TodoMutationAction.updateMutation "7" "2024-06-01T12:00:00Z" "2024-06-01T12:00:00Z" ∧
    handleDeleteTodo ⟨7, some "t", none, none, "2024-01-01T00:00:00Z", none, none⟩
        true "2024-06-01T12:00:00Z" ≠ TodoMutationAction.deleteMutation "7" ∧
    WhereCondition.isCond "deleted_at" none ∈
      (buildTodosQuery "할" "created_at" SortDirection.desc 0 10).whereConditions :=
  ⟨soft_delete_spec.1 ⟨7, some "t", none, none, "2024-01-01T00:00:00Z", none, none⟩
      "2024-06-01T12:00:00Z" rfl,
   soft_delete_spec.2.1 ⟨7, some "t", none, none, "2024-01-01T00:00:00Z", none, none⟩
      true "2024-06-01T12:00:00Z" "7",
   soft_delete_spec.2.2 "할" "created_at" SortDirection.desc 0 10⟩

/-! ## Route table -/

/-- C2 counterexample: the live route table has no sign-up entry. Its single
root route's children have exactly the paths index, `about`, `todos`,
`login` and `*`, and no rendered element is the sign-up page. -/
theorem routes_no_signup_counterexample :
    routes.map (fun r => r.children.map ChildRoute.path) =
      [[none, some "about", some "todos", some "login", some "*"]] ∧
    ((routes.map (fun r => r.children.map ChildRoute.element)).flatten.contains
      "SignUpPage") = false := by
  decide

/-- C2 as amended: the route table is a single root `/` route (a non-lazy
layout) whose children are exactly the index home route, `about`, `todos`,
`login` and the catch-all `*`, in that order, each child mapped to a lazily
loaded page component; there is no sign-up entry. -/
theorem routes_table_spec :
    routes.map RootRoute.path = ["/"] ∧
    routes.map RootRoute.element = ["RootLayout"] ∧
    routes.map (fun r => r.children.map ChildRoute.path) =
      [[none, some "about", some "todos", some "login", some "*"]] ∧
    routes.map (fun r => r.children.map ChildRoute.index) =
      [[true, false, false, false, false]] ∧
    routes.map (fun r => r.children.map ChildRoute.element) =
      [["HomePage", "AboutPage", "TodoPage", "LoginPage", "NotFoundPage"]] ∧
    routes.map (fun r => r.children.all ChildRoute.elementLazy) = [true] := by
  decide

/-! ## Frame effect of chaining methods

List lemmas about `getD` after the allocation (`++ [x]`) and in-place update
(`set`) performed by `clone` and `push`, then per-method lemmas, then the
combined claim theorem. -/

theorem list_getD_set_ne {α : Type} (l : List α) (a d : α) (i j : Nat)
    (hne : i ≠ j) : (l.set i a).getD j d = l.getD j d := by
  induction l generalizing i j with
  | nil => rfl
  | cons x xs ih =>
    cases i with
    | zero =>
      cases j with
      | zero => exact absurd rfl hne
      | succ j => rfl
    | succ i =>
      cases j with
      | zero => rfl
      | succ j =>
        have hij : i ≠ j := fun h => hne (congrArg Nat.succ h)
        simpa using ih i j hij

theorem list_getD_append_self {α : Type} (l : List α) (x d : α) :
    (l ++ [x]).getD l.length d = x := by
  rw [List.getD_append_right _ _ _ _ (Nat.le_refl _)]
  simp

theorem list_getD_set_append_self {α : Type} (l : List α) (x y d : α) :
    ((l ++ [x]).set l.length y).getD l.length d = y := by
  induction l with
  | nil => rfl
  | cons a as ih => simp only [List.cons_append, List.length_cons, List.set_cons_succ,
      List.getD_cons_succ]; exact ih

theorem list_getD_set_append_ne {α : Type} (l : List α) (x y d : α) (j : Nat)
    (hj : j < l.length) :
    ((l ++ [x]).set l.length y).getD j d = l.getD j d := by
  rw [list_getD_set_ne _ _ _ _ _ (Nat.ne_of_lt hj).symm]
  exact List.getD_append _ _ _ _ hj

/-- Dereferencing the receiver through the cloned store reads the same
state: the freshly allocated copies live past the end of the store. -/
theorem observe_clone_store (s : Mut.Store) (b : Mut.BuilderObj)
    (hv : s.validFor b) : Mut.observe (Mut.clone s b).1 b = Mut.observe s b := by
  obtain ⟨h1, h2⟩ := hv
  simp only [Mut.observe, Mut.clone]
  rw [List.getD_append _ _ _ _ h1, List.getD_append _ _ _ _ h2]

/-- The clone dereferences to the same state as the receiver. -/
theorem observe_clone_result (s : Mut.Store) (b : Mut.BuilderObj) :
    Mut.observe (Mut.clone s b).1 (Mut.clone s b).2 = Mut.observe s b := by
  simp only [Mut.observe, Mut.clone]
  rw [list_getD_append_self, list_getD_append_self]

theorem observe_setSelected (s : Mut.Store) (b : Mut.BuilderObj) (v : String) :
    Mut.observe s { b with selectedColumns := v } =
      { Mut.observe s b with selectedColumns := v } := rfl

theorem observe_setSearch (s : Mut.Store) (b : Mut.BuilderObj)
    (v : Option SearchCondition) :
    Mut.observe s { b with searchCondition := v } =
      { Mut.observe s b with searchCondition := v } := rfl

theorem observe_setPagination (s : Mut.Store) (b : Mut.BuilderObj)
    (v : Option PaginationCondition) :
    Mut.observe s { b with paginationCondition := v } =
      { Mut.observe s b with paginationCondition := v } := rfl

theorem observe_setSingle (s : Mut.Store) (b : Mut.BuilderObj) :
    Mut.observe s { b with singleMode := true } =
      { Mut.observe s b with singleMode := true } := rfl

theorem observe_setCount (s : Mut.Store) (b : Mut.BuilderObj) :
    Mut.observe s { b with countMode := true } =
      { Mut.observe s b with countMode := true } := rfl

theorem observe_setWithCount (s : Mut.Store) (b : Mut.BuilderObj) :
    Mut.observe s { b with withCountMode := true } =
      { Mut.observe s b with withCountMode := true } := rfl

theorem select_frame (s : Mut.Store) (b : Mut.BuilderObj) (hv : s.validFor b)
    (columns : String) : Mut.observe (Mut.select s b columns).1 b = Mut.observe s b :=
  observe_clone_store s b hv

theorem select_result (s : Mut.Store) (b : Mut.BuilderObj) (columns : String) :
    Mut.observe (Mut.select s b columns).1 (Mut.select s b columns).2 =
      (Mut.observe s b).select columns := by
  show Mut.observe (Mut.clone s b).1
      { (Mut.clone s b).2 with selectedColumns := columns } = _
  rw [observe_setSelected, observe_clone_result]
  rfl

theorem whereCond_frame (s : Mut.Store) (b : Mut.BuilderObj) (hv : s.validFor b)
    (c : WhereCondition) :
    Mut.observe (Mut.whereCond s b c).1 b = Mut.observe s b := by
  obtain ⟨h1, h2⟩ := hv
  simp only [Mut.whereCond, Mut.pushWhere, Mut.clone, Mut.observe]
  rw [list_getD_set_append_ne _ _ _ _ _ h1, List.getD_append _ _ _ _ h2]

theorem whereCond_result (s : Mut.Store) (b : Mut.BuilderObj) (c : WhereCondition) :
    Mut.observe (Mut.whereCond s b c).1 (Mut.whereCond s b c).2 =
      (Mut.observe s b).whereCond c := by
  simp only [Mut.whereCond, Mut.pushWhere, Mut.clone, Mut.observe,
    SupabaseQueryBuilder.whereCond]
  rw [list_getD_append_self, list_getD_set_append_self, list_getD_append_self]

theorem search_frame (s : Mut.Store) (b : Mut.BuilderObj) (hv : s.validFor b)
    (columns : List String) (term : String) (caseSensitive : Bool) :
    Mut.observe (Mut.search s b columns term caseSensitive).1 b = Mut.observe s b := by
  unfold Mut.search
  split
  · rfl
  · exact observe_clone_store s b hv

theorem search_result (s : Mut.Store) (b : Mut.BuilderObj)
    (columns : List String) (term : String) (caseSensitive : Bool) :
    Mut.observe (Mut.search s b columns term caseSensitive).1
        (Mut.search s b columns term caseSensitive).2 =
      (Mut.observe s b).search columns term caseSensitive := by
  unfold Mut.search SupabaseQueryBuilder.search
  split
  · rfl
  · rw [observe_setSearch, observe_clone_result]

theorem sort_frame (s : Mut.Store) (b : Mut.BuilderObj) (hv : s.validFor b)
    (column : String) (direction : SortDirection) (nullsFirst : Option Bool) :
    Mut.observe (Mut.sort s b column direction nullsFirst).1 b = Mut.observe s b := by
  obtain ⟨h1, h2⟩ := hv
  simp only [Mut.sort, Mut.pushSort, Mut.clone, Mut.observe]
  rw [List.getD_append _ _ _ _ h1, list_getD_set_append_ne _ _ _ _ _ h2]

theorem sort_result (s : Mut.Store) (b : Mut.BuilderObj) (column : String)
    (direction : SortDirection) (nullsFirst : Option Bool) :
    Mut.observe (Mut.sort s b column direction nullsFirst).1
        (Mut.sort s b column direction nullsFirst).2 =
      (Mut.observe s b).sort column direction nullsFirst := by
  simp only [Mut.sort, Mut.pushSort, Mut.clone, Mut.observe,
    SupabaseQueryBuilder.sort]
  rw [list_getD_append_self, list_getD_set_append_self, list_getD_append_self]

theorem paginate_frame (s : Mut.Store) (b : Mut.BuilderObj) (hv : s.validFor b)
    (condition : PaginationCondition) :
    Mut.observe (Mut.paginate s b condition).1 b = Mut.observe s b :=
  observe_clone_store s b hv

theorem paginate_result (s : Mut.Store) (b : Mut.BuilderObj)
    (condition : PaginationCondition) :
    Mut.observe (Mut.paginate s b condition).1 (Mut.paginate s b condition).2 =
      (Mut.observe s b).paginate condition := by
  show Mut.observe (Mut.clone s b).1
      { (Mut.clone s b).2 with paginationCondition := some condition } = _
  rw [observe_setPagination, observe_clone_result]
  rfl

theorem single_frame (s : Mut.Store) (b : Mut.BuilderObj) (hv : s.validFor b) :
    Mut.observe (Mut.single s b).1 b = Mut.observe s b :=
  observe_clone_store s b hv

theorem single_result (s : Mut.Store) (b : Mut.BuilderObj) :
    Mut.observe (Mut.single s b).1 (Mut.single s b).2 = (Mut.observe s b).single := by
  show Mut.observe (Mut.clone s b).1 { (Mut.clone s b).2 with singleMode := true } = _
  rw [observe_setSingle, observe_clone_result]
  rfl

theorem count_frame (s : Mut.Store) (b : Mut.BuilderObj) (hv : s.validFor b) :
    Mut.observe (Mut.count s b).1 b = Mut.observe s b :=
  observe_clone_store s b hv

theorem count_result (s : Mut.Store) (b : Mut.BuilderObj) :
    Mut.observe (Mut.count s b).1 (Mut.count s b).2 = (Mut.observe s b).count := by
  show Mut.observe (Mut.clone s b).1 { (Mut.clone s b).2 with countMode := true } = _
  rw [observe_setCount, observe_clone_result]
  rfl

theorem withCount_frame (s : Mut.Store) (b : Mut.BuilderObj) (hv : s.validFor b) :
    Mut.observe (Mut.withCount s b).1 b = Mut.observe s b :=
  observe_clone_store s b hv

theorem withCount_result (s : Mut.Store) (b : Mut.BuilderObj) :
    Mut.observe (Mut.withCount s b).1 (Mut.withCount s b).2 =
      (Mut.observe s b).withCount := by
  show Mut.observe (Mut.clone s b).1 { (Mut.clone s b).2 with withCountMode := true } = _
  rw [observe_setWithCount, observe_clone_result]
  rfl

/-- C9: for a receiver whose array references are live, every chaining
method — `select`, `selectColumn`, `selectColumns`, `where` (and its
`whereEq`/`whereIn`/`whereGt`/`whereLike` variants), `search`,
`searchInColumn`, `sort`, `orderBy`, `orderByDesc`, `paginate`, `single`,
`count`, `withCount` — leaves the receiver's entire observable accumulated
state unchanged, and the returned object's observable state is exactly the
corresponding pure update of the receiver's state. -/
theorem builder_methods_frame (s : Mut.Store) (b : Mut.BuilderObj)
    (hv : s.validFor b) :
    (∀ columns, Mut.observe (Mut.select s b columns).1 b = Mut.observe s b ∧
      Mut.observe (Mut.select s b columns).1 (Mut.select s b columns).2 =
        (Mut.observe s b).select columns) ∧
    (∀ column, Mut.observe (Mut.selectColumn s b column).1 b = Mut.observe s b ∧
      Mut.observe (Mut.selectColumn s b column).1 (Mut.selectColumn s b column).2 =
        (Mut.observe s b).selectColumn column) ∧
    (∀ columns, Mut.observe (Mut.selectColumns s b columns).1 b = Mut.observe s b ∧
      Mut.observe (Mut.selectColumns s b columns).1 (Mut.selectColumns s b columns).2 =
        (Mut.observe s b).selectColumns columns) ∧
    (∀ c, Mut.observe (Mut.whereCond s b c).1 b = Mut.observe s b ∧
      Mut.observe (Mut.whereCond s b c).1 (Mut.whereCond s b c).2 =
        (Mut.observe s b).whereCond c) ∧
    (∀ column value, Mut.observe (Mut.whereEq s b column value).1 b = Mut.observe s b ∧
      Mut.observe (Mut.whereEq s b column value).1 (Mut.whereEq s b column value).2 =
        (Mut.observe s b).whereEq column value) ∧
    (∀ column values, Mut.observe (Mut.whereIn s b column values).1 b = Mut.observe s b ∧
      Mut.observe (Mut.whereIn s b column values).1 (Mut.whereIn s b column values).2 =
        (Mut.observe s b).whereIn column values) ∧
    (∀ column value, Mut.observe (Mut.whereGt s b column value).1 b = Mut.observe s b ∧
      Mut.observe (Mut.whereGt s b column value).1 (Mut.whereGt s b column value).2 =
        (Mut.observe s b).whereGt column value) ∧
    (∀ column p, Mut.observe (Mut.whereLike s b column p).1 b = Mut.observe s b ∧
      Mut.observe (Mut.whereLike s b column p).1 (Mut.whereLike s b column p).2 =
        (Mut.observe s b).whereLike column p) ∧
    (∀ columns term cs, Mut.observe (Mut.search s b columns term cs).1 b = Mut.observe s b ∧
      Mut.observe (Mut.search s b columns term cs).1 (Mut.search s b columns term cs).2 =
        (Mut.observe s b).search columns term cs) ∧
    (∀ column term cs,
      Mut.observe (Mut.searchInColumn s b column term cs).1 b = Mut.observe s b ∧
      Mut.observe (Mut.searchInColumn s b column term cs).1
          (Mut.searchInColumn s b column term cs).2 =
        (Mut.observe s b).searchInColumn column term cs) ∧
    (∀ column direction nullsFirst,
      Mut.observe (Mut.sort s b column direction nullsFirst).1 b = Mut.observe s b ∧
      Mut.observe (Mut.sort s b column direction nullsFirst).1
          (Mut.sort s b column direction nullsFirst).2 =
        (Mut.observe s b).sort column direction nullsFirst) ∧
    (∀ column, Mut.observe (Mut.orderBy s b column).1 b = Mut.observe s b ∧
      Mut.observe (Mut.orderBy s b column).1 (Mut.orderBy s b column).2 =
        (Mut.observe s b).orderBy column) ∧
    (∀ column, Mut.observe (Mut.orderByDesc s b column).1 b = Mut.observe s b ∧
      Mut.observe (Mut.orderByDesc s b column).1 (Mut.orderByDesc s b column).2 =
        (Mut.observe s b).orderByDesc column) ∧
    (∀ condition, Mut.observe (Mut.paginate s b condition).1 b = Mut.observe s b ∧
      Mut.observe (Mut.paginate s b condition).1 (Mut.paginate s b condition).2 =
        (Mut.observe s b).paginate condition) ∧
    (Mut.observe (Mut.single s b).1 b = Mut.observe s b ∧
      Mut.observe (Mut.single s b).1 (Mut.single s b).2 = (Mut.observe s b).single) ∧
    (Mut.observe (Mut.count s b).1 b = Mut.observe s b ∧
      Mut.observe (Mut.count s b).1 (Mut.count s b).2 = (Mut.observe s b).count) ∧
    (Mut.observe (Mut.withCount s b).1 b = Mut.observe s b ∧
      Mut.observe (Mut.withCount s b).1 (Mut.withCount s b).2 =
        (Mut.observe s b).withCount) :=
  ⟨fun columns => ⟨select_frame s b hv columns, select_result s b columns⟩,
   fun column => ⟨select_frame s b hv column, select_result s b column⟩,
   fun columns => ⟨select_frame s b hv (String.intercalate ", " columns),
     select_result s b (String.intercalate ", " columns)⟩,
   fun c => ⟨whereCond_frame s b hv c, whereCond_result s b c⟩,
   fun column value => ⟨whereCond_frame s b hv (WhereCondition.eq column value),
     whereCond_result s b (WhereCondition.eq column value)⟩,
   fun column values => ⟨whereCond_frame s b hv (WhereCondition.inList column values),
     whereCond_result s b (WhereCondition.inList column values)⟩,
   fun column value => ⟨whereCond_frame s b hv (WhereCondition.gt column value),
     whereCond_result s b (WhereCondition.gt column value)⟩,
   fun column p => ⟨whereCond_frame s b hv (WhereCondition.like column p),
     whereCond_result s b (WhereCondition.like column p)⟩,
   fun columns term cs => ⟨search_frame s b hv columns term cs,
     search_result s b columns term cs⟩,
   fun column term cs => ⟨search_frame s b hv [column] term cs,
     search_result s b [column] term cs⟩,
   fun column direction nullsFirst => ⟨sort_frame s b hv column direction nullsFirst,
     sort_result s b column direction nullsFirst⟩,
   fun column => ⟨sort_frame s b hv column SortDirection.asc none,
     sort_result s b column SortDirection.asc none⟩,
   fun column => ⟨sort_frame s b hv column SortDirection.desc none,
     sort_result s b column SortDirection.desc none⟩,
   fun condition => ⟨paginate_frame s b hv condition, paginate_result s b condition⟩,
   ⟨single_frame s b hv, single_result s b⟩,
   ⟨count_frame s b hv, count_result s b⟩,
   ⟨withCount_frame s b hv, withCount_result s b⟩⟩

/-- Witness for C9: on a concrete store holding one allocated
where-condition array, pushing a new condition through `where` leaves the
receiver's observed state unchanged. -/
theorem builder_methods_frame_witness :
    (Mut.Store.mk [[WhereCondition.eq "id" (JsVal.vNum 1)]] [[]]).validFor
        ⟨"tb_todolist", "*", 0, none, 0, none, false, false, false⟩ ∧
    Mut.observe
        (Mut.whereCond (Mut.Store.mk [[WhereCondition.eq "id" (JsVal.vNum 1)]] [[]])
          ⟨"tb_todolist", "*", 0, none, 0, none, false, false, false⟩
          (WhereCondition.isCond "deleted_at" none)).1
        ⟨"tb_todolist", "*", 0, none, 0, none, false, false, false⟩ =
      Mut.observe (Mut.Store.mk [[WhereCondition.eq "id" (JsVal.vNum 1)]] [[]])
        ⟨"tb_todolist", "*", 0, none, 0, none, false, false, false⟩ :=
  ⟨by decide,
   ((builder_methods_frame
      (Mut.Store.mk [[WhereCondition.eq "id" (JsVal.vNum 1)]] [[]])
      ⟨"tb_todolist", "*", 0, none, 0, none, false, false, false⟩
      (by decide)).2.2.2.1 (WhereCondition.isCond "deleted_at" none)).1⟩

end Vibe
